import Mathlib

/-!
Verification development for the decision core of the Optimizely python-sdk:
a shallow embedding of `optimizely/decision_service.py` and
`optimizely/project_config.py`, instrumented with an explicit effect trace
(log calls, error-handler calls, collaborator call sites), together with
theorems settling the specified behavioral properties.

Python dicts are embedded as association lists with override-on-insert
semantics; Python attribute errors, key errors and value errors surface as an
explicit `PyErr` in an `Except`; external collaborators (the sticky-decision
store, the audience predicate, the deterministic bucketer) are abstract
functions supplied in a `DecisionEnv`, matching their black-box contracts.
-/

namespace Optly

/-- Lookup in an embedded Python dict (first binding wins; inserts are
override-then-append, so each key occurs at most once). -/
def dictLookup {α : Type} (m : List (String × α)) (k : String) : Option α :=
  (m.find? (fun p => p.1 == k)).map (fun p => p.2)

/-- `d[k] = v` on an embedded Python dict: replaces any existing binding. -/
def dictInsert {α : Type} (m : List (String × α)) (k : String) (v : α) :
    List (String × α) :=
  (m.filter (fun p => p.1 != k)) ++ [(k, v)]

/-- Python `k in d` on an embedded dict. -/
def dictMem {α : Type} (m : List (String × α)) (k : String) : Bool :=
  (dictLookup m k).isSome

/-- Python `d1.update(d2)` on embedded dicts. -/
def dictUpdate {α : Type} (m additions : List (String × α)) :
    List (String × α) :=
  additions.foldl (fun acc p => dictInsert acc p.1 p.2) m

/-- Python runtime failures that the embedded code can raise. -/
inductive PyErr where
  | attributeError (attr : String)
  | keyError (k : String)
  | valueError (v : String)
deriving DecidableEq, Repr

/-- Decidable equality for `Except`, so that concrete runs of the embedded
fallible code can be checked by `decide`. -/
instance {ε α : Type} [DecidableEq ε] [DecidableEq α] : DecidableEq (Except ε α)
  | .error a, .error b =>
    if h : a = b then isTrue (h ▸ rfl) else isFalse (fun hh => h (Except.error.inj hh))
  | .error _, .ok _ => isFalse (fun hh => Except.noConfusion hh)
  | .ok _, .error _ => isFalse (fun hh => Except.noConfusion hh)
  | .ok a, .ok b =>
    if h : a = b then isTrue (h ▸ rfl) else isFalse (fun hh => h (Except.ok.inj hh))

/-- Log levels of the logger collaborator (`helpers/enums.py` is not under
src; the levels are those named by the spec: DEBUG, INFO, WARNING, ERROR). -/
inductive LogLevel where
  | DEBUG
  | INFO
  | WARNING
  | ERROR
deriving DecidableEq, Repr

/-- Modelled from the spec: `user_profile.py` is not under src. A UserProfile
holds the user id and the sticky experiment-bucket map
(experiment id to variation id). -/
structure UserProfile where
  user_id : String
  experiment_bucket_map : List (String × String)
deriving DecidableEq, Repr

/-- Modelled from the spec: `UserProfile.get_variation_for_experiment` returns
the stored variation id for the experiment, if any. -/
def UserProfile.get_variation_for_experiment (p : UserProfile)
    (experiment_id : String) : Option String :=
  dictLookup p.experiment_bucket_map experiment_id

/-- Modelled from the spec: `UserProfile.save_variation_for_experiment`
records `experiment_id -> variation_id` in the bucket map. -/
def UserProfile.save_variation_for_experiment (p : UserProfile)
    (experiment_id variation_id : String) : UserProfile :=
  ⟨p.user_id, dictInsert p.experiment_bucket_map experiment_id variation_id⟩

/-- Observable effects of a call: log lines, error-handler invocations
(carrying the exception class name), and call sites of the external
collaborators (sticky store lookup/save, audience predicate, bucketer). -/
inductive Effect where
  | log (lvl : LogLevel) (msg : String)
  | handleError (exc : String)
  | forcedCheck (user_id : String)
  | upsLookupCall (user_id : String)
  | upsSaveCall (p : UserProfile)
  | audienceCall (experiment_id : String)
  | bucketCall (experiment_id user_id : String)
  | findBucketCall (user_id parent_id : String)
deriving DecidableEq, Repr

/-- A traffic-allocation range entry (`entities.py` is not under src; fields
are those the spec names: entity id and cumulative end of range). -/
structure TrafficAllocation where
  entityId : String
  endOfRange : Nat
deriving DecidableEq, Repr

/-- A variable-usage override recorded on a variation
(`entities.Variation.VariableUsage`): variable id and raw string value. -/
structure VariableUsage where
  id : String
  value : String
deriving DecidableEq, Repr

/-- A variation: id, key, and its variable-usage overrides. -/
structure Variation where
  id : String
  key : String
  variables_ : List VariableUsage  -- Python attribute `variables` (reserved word in Lean)
deriving DecidableEq, Repr

/-- A feature variable definition: id, key, declared type, default value. -/
structure Variable where
  id : String
  key : String
  type : String
  defaultValue : String
deriving DecidableEq, Repr

/-- An experiment record as indexed by the config (the raw datafile dict and
the constructed entity carry the same fields, so one structure embeds both).
`groupId`/`groupPolicy` are absent (`none`) until group annotation. -/
structure Experiment where
  id : String
  key : String
  status : String
  variations : List Variation
  audienceIds : List String
  forcedVariations : List (String × String)
  trafficAllocation : List TrafficAllocation
  groupId : Option String
  groupPolicy : Option String
deriving DecidableEq, Repr

/-- A mutual-exclusion group: id, policy, member experiments, and the
group-level traffic allocation over experiment ids. -/
structure Group where
  id : String
  policy : String
  experiments : List Experiment
  trafficAllocation : List TrafficAllocation
deriving DecidableEq, Repr

/-- A layer (rollout): id and the ordered experiment references; the config
reads each reference's `key` field and the reference dicts carry full
experiment records, so they are embedded as `Experiment`s. -/
structure Layer where
  id : String
  experiments : List Experiment
deriving DecidableEq, Repr

/-- A feature flag: associated experiment ids, optional rollout layer id,
optional mutex-group id, and its variable definitions. -/
structure Feature where
  id : String
  key : String
  experimentIds : List String
  layerId : Option String
  groupId : Option String
  variables_ : List Variable  -- Python attribute `variables` (reserved word in Lean)
deriving DecidableEq, Repr

/-- The already-deserialized configuration document, restricted to the
sections the decision core reads (events, attributes and audiences are
carried by the real datafile but touched by no property verified here). -/
structure Datafile where
  version : Option String
  groups : List Group
  experiments : List Experiment
  layers : List Layer
  features : List Feature
deriving DecidableEq, Repr

def V1_CONFIG_VERSION : String := "1"

def V2_CONFIG_VERSION : String := "2"

def SUPPORTED_VERSIONS : List String := [V2_CONFIG_VERSION]

def UNSUPPORTED_VERSIONS : List String := [V1_CONFIG_VERSION]

/-- The lookup maps built by a successful parse (in Python these are
attributes set on the config object only when the version is supported;
on the unsupported path they are never created). -/
structure ConfigMaps where
  group_id_map : List (String × Group)
  experiment_key_map : List (String × Experiment)
  experiment_id_map : List (String × Experiment)
  layer_id_map : List (String × Layer)
  variation_key_map : List (String × List (String × Variation))
  variation_id_map : List (String × List (String × Variation))
  variation_variable_usage_map : List (String × List (String × VariableUsage))
  feature_key_map : List (String × Feature)
deriving DecidableEq, Repr

/-- The project config: `maps = none` embeds the state in which
`ProjectConfig.__init__` returned early (unsupported version) and the map
attributes were never created, so touching them is an `attributeError`. -/
structure ProjectConfig where
  parsing_succeeded : Bool
  version : Option String
  maps : Option ConfigMaps
deriving DecidableEq, Repr

/-- `_generate_key_map(list, key, entity_class)`: builds a dict keyed by the
given projection (entity construction is the identity here because raw dicts
and entities share one structure). -/
def generate_key_map {α : Type} (l : List α) (key : α → String) :
    List (String × α) :=
  l.foldl (fun m o => dictInsert m (key o) o) []

/-- Registration of layer-nested experiments into the experiment-by-key map
(`for layer in layer_id_map.values(): for experiment in layer.experiments`). -/
def register_layer_experiments (ekm : List (String × Experiment))
    (layers : List Layer) : List (String × Experiment) :=
  layers.foldl
    (fun m l => l.experiments.foldl (fun m2 e => dictInsert m2 e.key e) m) ekm

/-- Group annotation: each experiment of each group gets the group's id and
policy, and the annotated experiments override the experiment-by-key map. -/
def register_group_experiments (ekm : List (String × Experiment))
    (groups : List Group) : List (String × Experiment) :=
  groups.foldl
    (fun m g =>
      dictUpdate m
        (generate_key_map
          (g.experiments.map
            (fun e => { e with groupId := some g.id, groupPolicy := some g.policy }))
          (fun e => e.key)))
    ekm

/-- One step of the derived-map loop: from one experiment, extend the
experiment-by-id, variation-by-key, variation-by-id and
variation-variable-usage maps. -/
def derive_maps_step
    (acc : List (String × Experiment) × List (String × List (String × Variation)) ×
      List (String × List (String × Variation)) ×
      List (String × List (String × VariableUsage)))
    (e : Experiment) :
    List (String × Experiment) × List (String × List (String × Variation)) ×
      List (String × List (String × Variation)) ×
      List (String × List (String × VariableUsage)) :=
  let eim := dictInsert acc.1 e.id e
  let vmap := generate_key_map e.variations (fun v => v.key)
  let vkm := dictInsert acc.2.1 e.key vmap
  let byId := vmap.foldl (fun m p => dictInsert m p.2.id p.2) []
  let vim := dictInsert acc.2.2.1 e.key byId
  let vvum := vmap.foldl
    (fun m p =>
      if p.2.variables_.isEmpty then m
      else dictInsert m p.2.id (generate_key_map p.2.variables_ (fun u => u.id)))
    acc.2.2.2
  (eim, vkm, vim, vvum)

/-- The feature loop body that inherits a group id from the first associated
experiment that belongs to a group (`experiment_id_map[exp_id]` is a required
key access: a dangling experiment id raises `KeyError`). -/
def feature_inherited_group_id (eim : List (String × Experiment)) :
    List String → Option String → Except PyErr (Option String)
  | [], acc => .ok acc
  | eid :: rest, acc =>
    match dictLookup eim eid with
    | none => .error (.keyError eid)
    | some e =>
      match e.groupId with
      | some gid => .ok (some gid)
      | none => feature_inherited_group_id eim rest acc

/-- Feature-map construction (`feature_key_map` plus group-id inheritance);
variable lists are left as authored since no verified property reads the
per-feature variable key map. -/
def build_feature_map (eim : List (String × Experiment)) :
    List Feature → List (String × Feature) →
    Except PyErr (List (String × Feature))
  | [], acc => .ok acc
  | f :: rest, acc =>
    match feature_inherited_group_id eim f.experimentIds f.groupId with
    | .error e => .error e
    | .ok gid => build_feature_map eim rest (dictInsert acc f.key { f with groupId := gid })

/-- `ProjectConfig.__init__`: on an unsupported version the method returns
early with `parsing_succeeded = False` and no lookup maps; otherwise it
builds all maps in dependency order and sets `parsing_succeeded = True`. -/
def ProjectConfig.init (d : Datafile) : Except PyErr ProjectConfig :=
  if (match d.version with | some v => UNSUPPORTED_VERSIONS.contains v | none => false) then
    .ok { parsing_succeeded := false, version := d.version, maps := none }
  else
    let gim := generate_key_map d.groups (fun g => g.id)
    let ekm0 := generate_key_map d.experiments (fun e => e.key)
    let lim := generate_key_map d.layers (fun l => l.id)
    let ekm1 := register_layer_experiments ekm0 (lim.map (fun p => p.2))
    let ekm := register_group_experiments ekm1 (gim.map (fun p => p.2))
    let derived := (ekm.map (fun p => p.2)).foldl derive_maps_step ([], [], [], [])
    match build_feature_map derived.1 d.features [] with
    | .error e => .error e
    | .ok fkm =>
      .ok { parsing_succeeded := true, version := d.version,
            maps := some
              { group_id_map := gim
                experiment_key_map := ekm
                experiment_id_map := derived.1
                layer_id_map := lim
                variation_key_map := derived.2.1
                variation_id_map := derived.2.2.1
                variation_variable_usage_map := derived.2.2.2
                feature_key_map := fkm } }

/-- Fetch one of the lookup-map attributes: on the unsupported-version path
the attribute was never created, so the access raises `AttributeError`. -/
def ProjectConfig.getMaps (c : ProjectConfig) (attr : String) :
    Except PyErr ConfigMaps :=
  match c.maps with
  | some m => .ok m
  | none => .error (.attributeError attr)

/-- `ProjectConfig.was_parsing_successful`. -/
def ProjectConfig.was_parsing_successful (c : ProjectConfig) : Bool :=
  c.parsing_succeeded

/-- `ProjectConfig.get_experiment_from_key`: on a miss, logs at ERROR, reports
an invalid-experiment error to the error handler, and returns an absent
result. -/
def ProjectConfig.get_experiment_from_key (c : ProjectConfig)
    (experiment_key : String) : Except PyErr (Option Experiment × List Effect) :=
  match c.getMaps "experiment_key_map" with
  | .error err => .error err
  | .ok m =>
    match dictLookup m.experiment_key_map experiment_key with
    | some e => .ok (some e, [])
    | none =>
      .ok (none,
        [.log .ERROR ("Experiment key \"" ++ experiment_key ++ "\" is not in datafile."),
         .handleError "InvalidExperimentException"])

/-- `ProjectConfig.get_experiment_from_id`: same reporting shape as the
by-key getter. -/
def ProjectConfig.get_experiment_from_id (c : ProjectConfig)
    (experiment_id : String) : Except PyErr (Option Experiment × List Effect) :=
  match c.getMaps "experiment_id_map" with
  | .error err => .error err
  | .ok m =>
    match dictLookup m.experiment_id_map experiment_id with
    | some e => .ok (some e, [])
    | none =>
      .ok (none,
        [.log .ERROR ("Experiment ID \"" ++ experiment_id ++ "\" is not in datafile."),
         .handleError "InvalidExperimentException"])

/-- `ProjectConfig.get_group`. -/
def ProjectConfig.get_group (c : ProjectConfig) (group_id : String) :
    Except PyErr (Option Group × List Effect) :=
  match c.getMaps "group_id_map" with
  | .error err => .error err
  | .ok m =>
    match dictLookup m.group_id_map group_id with
    | some g => .ok (some g, [])
    | none =>
      .ok (none,
        [.log .ERROR ("Group ID \"" ++ group_id ++ "\" is not in datafile."),
         .handleError "InvalidGroupException"])

/-- `ProjectConfig.get_variation_from_key`: distinguishes an unknown
experiment key from an unknown variation key; both are reported and yield an
absent result. -/
def ProjectConfig.get_variation_from_key (c : ProjectConfig)
    (experiment_key variation_key : String) :
    Except PyErr (Option Variation × List Effect) :=
  match c.getMaps "variation_key_map" with
  | .error err => .error err
  | .ok m =>
    match dictLookup m.variation_key_map experiment_key with
    | some variation_map =>
      match dictLookup variation_map variation_key with
      | some v => .ok (some v, [])
      | none =>
        .ok (none,
          [.log .ERROR ("Variation key \"" ++ variation_key ++ "\" is not in datafile."),
           .handleError "InvalidVariationException"])
    | none =>
      .ok (none,
        [.log .ERROR ("Experiment key \"" ++ experiment_key ++ "\" is not in datafile."),
         .handleError "InvalidExperimentException"])

/-- `ProjectConfig.get_variation_from_id`. -/
def ProjectConfig.get_variation_from_id (c : ProjectConfig)
    (experiment_key variation_id : String) :
    Except PyErr (Option Variation × List Effect) :=
  match c.getMaps "variation_id_map" with
  | .error err => .error err
  | .ok m =>
    match dictLookup m.variation_id_map experiment_key with
    | some variation_map =>
      match dictLookup variation_map variation_id with
      | some v => .ok (some v, [])
      | none =>
        .ok (none,
          [.log .ERROR ("Variation ID \"" ++ variation_id ++ "\" is not in datafile."),
           .handleError "InvalidVariationException"])
    | none =>
      .ok (none,
        [.log .ERROR ("Experiment key \"" ++ experiment_key ++ "\" is not in datafile."),
         .handleError "InvalidExperimentException"])

/-- `ProjectConfig.get_layer_from_id`: logs on a miss but involves no error
handler. -/
def ProjectConfig.get_layer_from_id (c : ProjectConfig) (layer_id : String) :
    Except PyErr (Option Layer × List Effect) :=
  match c.getMaps "layer_id_map" with
  | .error err => .error err
  | .ok m =>
    match dictLookup m.layer_id_map layer_id with
    | some l => .ok (some l, [])
    | none =>
      .ok (none,
        [.log .ERROR ("Layer with ID \"" ++ layer_id ++ "\" is not in datafile.")])

/-- A type-cast feature-variable value. Double values keep the raw authored
string: floating-point semantics are outside the embedding, and no verified
property depends on the numeric value of a double variable. -/
inductive VarValue where
  | boolVal (b : Bool)
  | intVal (n : Int)
  | doubleRaw (raw : String)
  | strVal (v : String)
deriving DecidableEq, Repr

/-- Variable type tokens (`entities.Variable.Type`; `entities.py` is not
under src, the tokens are the four types the spec names). -/
def VariableTypeBOOLEAN : String := "boolean"

def VariableTypeINTEGER : String := "integer"

def VariableTypeDOUBLE : String := "double"

def VariableTypeSTRING : String := "string"

/-- `ProjectConfig._get_typecast_value`: boolean is exact-match on the
true-literal; integer parsing failures propagate as `ValueError`. -/
def get_typecast_value (value ty : String) : Except PyErr VarValue :=
  if ty == VariableTypeBOOLEAN then .ok (.boolVal (value == "true"))
  else if ty == VariableTypeINTEGER then
    match value.toInt? with
    | some n => .ok (.intVal n)
    | none => .error (.valueError value)
  else if ty == VariableTypeDOUBLE then .ok (.doubleRaw value)
  else .ok (.strVal value)

/-- `ProjectConfig.get_variable_value_for_variation`: absent arguments give
`None`; a variation without a usage map gives `None` after an ERROR log; a
usage map lacking the variable's id is a required-key access
(`variable_usages[variable.id]`) and raises `KeyError`. -/
def ProjectConfig.get_variable_value_for_variation (c : ProjectConfig)
    (variableArg : Option Variable) (variation : Option Variation) :
    Except PyErr (Option VarValue × List Effect) :=
  match variableArg, variation with
  | none, _ => .ok (none, [])
  | _, none => .ok (none, [])
  | some vbl, some vrn =>
    match c.getMaps "variation_variable_usage_map" with
    | .error err => .error err
    | .ok m =>
      match dictLookup m.variation_variable_usage_map vrn.id with
      | none =>
        .ok (none,
          [.log .ERROR ("Variation with ID \"" ++ vrn.id ++ "\" is not in the datafile.")])
      | some variable_usages =>
        match dictLookup variable_usages vbl.id with
        | none => .error (.keyError vbl.id)
        | some usage =>
          match get_typecast_value usage.value vbl.type with
          | .error err => .error err
          | .ok value => .ok (some value, [])

/-- Modelled from the spec: `helpers/experiment.py` is not under src; an
experiment is running iff its status is the Running literal (spec: "if
experiment status ≠ Running, result is none"). -/
def is_experiment_running (e : Experiment) : Bool :=
  e.status == "Running"

/-- User attributes as passed through the pipeline (the decision core never
inspects them; they only feed the external audience predicate). -/
def Attributes := Option (List (String × String))

/-- Outcome of the sticky store's `lookup` as seen after the
try/except + shape validation in `get_variation`: the call raised, or it
returned something that fails `is_user_profile_valid` (including `None`), or
it returned a validly shaped profile. `user_profile.py` and
`helpers/validator.py` are not under src; validity is modelled from the spec
("must be a mapping containing a user-id field and an experiment-bucket
mapping field"). -/
inductive LookupResult where
  | fail (msg : String)
  | invalid
  | valid (p : UserProfile)
deriving DecidableEq, Repr

/-- The external collaborators of the decision service: sticky store
presence, lookup and save, the audience predicate, and the deterministic
bucketer (`bucketer.py` and `helpers/audience.py` are not under src; both
are abstract functions here, matching their black-box contracts in the
spec). `save` returns the raised message, or `none` on success. -/
structure DecisionEnv where
  hasUps : Bool
  lookup : String → LookupResult
  save : UserProfile → Option String
  audience : ProjectConfig → Experiment → Attributes → Bool
  bucket : Experiment → String → Option Variation
  find_bucket : String → String → List TrafficAllocation → Option String

/-- `DecisionService.get_forced_variation`: if the user id is a key of the
experiment's forced-variation map, resolve the mapped variation key in the
config (reporting effects included) and log on success; otherwise `None`
with no effects. -/
def get_forced_variation (c : ProjectConfig) (e : Experiment)
    (user_id : String) : Except PyErr (Option Variation × List Effect) :=
  match dictLookup e.forcedVariations user_id with
  | none => .ok (none, [])
  | some variation_key =>
    match c.get_variation_from_key e.key variation_key with
    | .error err => .error err
    | .ok (some v, effs) =>
      .ok (some v, effs ++
        [.log .INFO ("User \"" ++ user_id ++ "\" is forced in variation \"" ++ variation_key ++ "\".")])
    | .ok (none, effs) => .ok (none, effs)

/-- `DecisionService.get_stored_variation`: read the profile's stored
variation id for the experiment and resolve it in the config, logging the
stored decision on success. -/
def get_stored_variation (c : ProjectConfig) (e : Experiment)
    (user_profile : UserProfile) : Except PyErr (Option Variation × List Effect) :=
  match user_profile.get_variation_for_experiment e.id with
  | none => .ok (none, [])
  | some variation_id =>
    match c.get_variation_from_id e.key variation_id with
    | .error err => .error err
    | .ok (some v, effs) =>
      .ok (some v, effs ++
        [.log .INFO ("Found a stored decision. User \"" ++ user_profile.user_id ++
          "\" is in variation \"" ++ v.key ++ "\" of experiment \"" ++ e.key ++ "\".")])
    | .ok (none, effs) => .ok (none, effs)

/-- The tail of `get_variation` after the forced and stored stages: audience
gate, bucketing, and the guarded persistence write (whose failure is logged
and never changes the returned variation). -/
def bucket_and_store (c : ProjectConfig) (env : DecisionEnv) (e : Experiment)
    (user_id : String) (attributes : Attributes) (ignore_user_profile : Bool)
    (user_profile : UserProfile) : Option Variation × List Effect :=
  if ! env.audience c e attributes then
    (none, [.audienceCall e.id,
      .log .INFO ("User \"" ++ user_id ++ "\" does not meet conditions to be in experiment \"" ++ e.key ++ "\".")])
  else
    match env.bucket e user_id with
    | none => (none, [.audienceCall e.id, .bucketCall e.id user_id])
    | some v =>
      if ! ignore_user_profile && env.hasUps then
        let p' := user_profile.save_variation_for_experiment e.id v.id
        match env.save p' with
        | none => (some v, [.audienceCall e.id, .bucketCall e.id user_id, .upsSaveCall p'])
        | some msg =>
          (some v, [.audienceCall e.id, .bucketCall e.id user_id, .upsSaveCall p',
            .log .ERROR ("Unable to save user profile for user \"" ++ user_id ++ "\". Error: " ++ msg)])
      else (some v, [.audienceCall e.id, .bucketCall e.id user_id])

/-- `DecisionService.get_variation`: the five-stage pipeline (running check,
forced variation, stored decision behind the try/except around the sticky
lookup, audience gate, bucketing with guarded persistence). A `none`
experiment embeds Python's `None` argument, whose first attribute access
(`experiment.status` inside the running check) raises. -/
def get_variation (c : ProjectConfig) (env : DecisionEnv)
    (experiment : Option Experiment) (user_id : String)
    (attributes : Attributes) (ignore_user_profile : Bool) :
    Except PyErr (Option Variation × List Effect) :=
  match experiment with
  | none => .error (.attributeError "status")
  | some e =>
    if ! is_experiment_running e then
      .ok (none, [.log .INFO ("Experiment \"" ++ e.key ++ "\" is not running.")])
    else
      match get_forced_variation c e user_id with
      | .error err => .error err
      | .ok (some v, effs) => .ok (some v, .forcedCheck user_id :: effs)
      | .ok (none, effs) =>
        let acc := .forcedCheck user_id :: effs
        if ! ignore_user_profile && env.hasUps then
          match env.lookup user_id with
          | .fail msg =>
            let acc2 := acc ++ [.upsLookupCall user_id,
              .log .ERROR ("Unable to retrieve user profile for user \"" ++ user_id ++
                "\" as lookup failed. Error: " ++ msg),
              .log .WARNING "User profile has invalid format."]
            let r := bucket_and_store c env e user_id attributes ignore_user_profile ⟨user_id, []⟩
            .ok (r.1, acc2 ++ r.2)
          | .invalid =>
            let acc2 := acc ++ [.upsLookupCall user_id,
              .log .WARNING "User profile has invalid format."]
            let r := bucket_and_store c env e user_id attributes ignore_user_profile ⟨user_id, []⟩
            .ok (r.1, acc2 ++ r.2)
          | .valid p =>
            match get_stored_variation c e p with
            | .error err => .error err
            | .ok (some v, effs2) => .ok (some v, acc ++ [.upsLookupCall user_id] ++ effs2)
            | .ok (none, effs2) =>
              let r := bucket_and_store c env e user_id attributes ignore_user_profile p
              .ok (r.1, acc ++ [.upsLookupCall user_id] ++ effs2 ++ r.2)
        else
          let r := bucket_and_store c env e user_id attributes ignore_user_profile ⟨user_id, []⟩
          .ok (r.1, acc ++ r.2)

/-- The loop body of `get_variation_for_layer`: resolve each experiment
reference by key and run the full pipeline on it, returning on the first
variation. -/
def layer_experiments_loop (c : ProjectConfig) (env : DecisionEnv)
    (user_id : String) (attributes : Attributes) (ignore_user_profile : Bool) :
    List Experiment → Except PyErr (Option Variation × List Effect)
  | [] => .ok (none, [])
  | ref :: rest =>
    match c.get_experiment_from_key ref.key with
    | .error err => .error err
    | .ok (expOpt, effs) =>
      match get_variation c env expOpt user_id attributes ignore_user_profile with
      | .error err => .error err
      | .ok (some v, effs2) =>
        match expOpt with
        | some e =>
          .ok (some v, effs ++ effs2 ++
            [.log .DEBUG ("User \"" ++ user_id ++ "\" is in variation " ++ v.key ++
              " of experiment " ++ e.key ++ ".")])
        | none =>
          -- unreachable: `get_variation` raises on an absent experiment
          .error (.attributeError "status")
      | .ok (none, effs2) =>
        match layer_experiments_loop c env user_id attributes ignore_user_profile rest with
        | .error err => .error err
        | .ok (r, effs3) => .ok (r, effs ++ effs2 ++ effs3)

/-- `DecisionService.get_variation_for_layer`: a falsy layer yields `None`
with no effects; otherwise iterate its experiment references in declared
order. -/
def get_variation_for_layer (c : ProjectConfig) (env : DecisionEnv)
    (layer : Option Layer) (user_id : String) (attributes : Attributes)
    (ignore_user_profile : Bool) : Except PyErr (Option Variation × List Effect) :=
  match layer with
  | none => .ok (none, [])
  | some l => layer_experiments_loop c env user_id attributes ignore_user_profile l.experiments

/-- `DecisionService.get_experiment_in_group`: group-level bucketing via
`find_bucket`, then id resolution. -/
def get_experiment_in_group (c : ProjectConfig) (env : DecisionEnv) (g : Group)
    (user_id : String) : Except PyErr (Option Experiment × List Effect) :=
  match env.find_bucket user_id g.id g.trafficAllocation with
  | some experiment_id =>
    match c.get_experiment_from_id experiment_id with
    | .error err => .error err
    | .ok (some e, effs) =>
      .ok (some e, .findBucketCall user_id g.id :: effs ++
        [.log .INFO ("User \"" ++ user_id ++ "\" is in experiment " ++ e.key ++
          " of group " ++ g.id ++ ".")])
    | .ok (none, effs) =>
      .ok (none, .findBucketCall user_id g.id :: effs ++
        [.log .INFO ("User \"" ++ user_id ++ "\" is not in any experiments of group " ++ g.id ++ ".")])
  | none =>
    .ok (none, [.findBucketCall user_id g.id,
      .log .INFO ("User \"" ++ user_id ++ "\" is not in any experiments of group " ++ g.id ++ ".")])

/-- The invalid-group message (`helpers/enums.py` is not under src; the text
is immaterial to every verified property). -/
def INVALID_GROUP_ID_ERROR : String := "Provided group is not in datafile."

/-- `DecisionService.get_variation_for_feature`: mutex-group strategy (the
group-bucketed experiment is used only when its id is among the feature's
experiment ids), else the first associated experiment, then the rollout
(layer) fallback with the user profile ignored. -/
def get_variation_for_feature (c : ProjectConfig) (env : DecisionEnv)
    (feature : Feature) (user_id : String) (attributes : Attributes) :
    Except PyErr (Option Variation × List Effect) :=
  let exp_phase : Except PyErr (Option Variation × List Effect) :=
    match feature.groupId with
    | some gid =>
      match c.get_group gid with
      | .error err => .error err
      | .ok (some g, effs) =>
        match get_experiment_in_group c env g user_id with
        | .error err => .error err
        | .ok (some e, effs2) =>
          if feature.experimentIds.contains e.id then
            match get_variation c env (some e) user_id attributes false with
            | .error err => .error err
            | .ok (some v, effs3) =>
              .ok (some v, effs ++ effs2 ++ effs3 ++
                [.log .DEBUG ("User \"" ++ user_id ++ "\" is in variation " ++ v.key ++
                  " of experiment " ++ e.key ++ ".")])
            | .ok (none, effs3) => .ok (none, effs ++ effs2 ++ effs3)
          else .ok (none, effs ++ effs2)
        | .ok (none, effs2) => .ok (none, effs ++ effs2)
      | .ok (none, effs) => .ok (none, effs ++ [.log .ERROR INVALID_GROUP_ID_ERROR])
    | none =>
      match feature.experimentIds with
      | [] => .ok (none, [])
      | experiment_id :: _ =>
        match c.get_experiment_from_id experiment_id with
        | .error err => .error err
        | .ok (some e, effs) =>
          match get_variation c env (some e) user_id attributes false with
          | .error err => .error err
          | .ok (some v, effs3) =>
            .ok (some v, effs ++ effs3 ++
              [.log .DEBUG ("User \"" ++ user_id ++ "\" is in variation " ++ v.key ++
                " of experiment " ++ e.key ++ ".")])
          | .ok (none, effs3) => .ok (none, effs ++ effs3)
        | .ok (none, effs) => .ok (none, effs)
  match exp_phase with
  | .error err => .error err
  | .ok (varOpt, effs) =>
    match varOpt, feature.layerId with
    | none, some layer_id =>
      match c.get_layer_from_id layer_id with
      | .error err => .error err
      | .ok (layerOpt, effs2) =>
        match get_variation_for_layer c env layerOpt user_id attributes true with
        | .error err => .error err
        | .ok (r, effs3) => .ok (r, effs ++ effs2 ++ effs3)
    | _, _ => .ok (varOpt, effs)

/-- Does an effect touch the sticky-decision store (a lookup or a save)? -/
def Effect.touchesUps : Effect → Bool
  | .upsLookupCall _ => true
  | .upsSaveCall _ => true
  | _ => false

/-- A trace that neither reads nor writes the sticky-decision store. -/
def noStickyTrace (t : List Effect) : Bool :=
  t.all (fun eff => ! eff.touchesUps)

/-- A trace made only of log lines and error-handler reports (the only
effects the config getters produce). -/
def onlyReporting (t : List Effect) : Bool :=
  t.all (fun eff =>
    match eff with
    | .log _ _ => true
    | .handleError _ => true
    | _ => false)

/-! Concrete fixtures: a configuration document covering the shapes the
witnesses need (a running experiment with a forced variation, a paused
experiment, a dangling forced-variation entry, a variation with variable
usages, a mutex group, a rollout layer and two features). -/

def vControl : Variation := ⟨"111128", "control", []⟩

def vVariation : Variation := ⟨"111129", "variation", []⟩

def vRoll : Variation := ⟨"r1", "roll_var", []⟩

def usageCool : VariableUsage := ⟨"vu1", "true"⟩

def vWithVars : Variation := ⟨"555", "var_variation", [usageCool]⟩

def varBool : Variable := ⟨"vu1", "is_cool", "boolean", "false"⟩

def varOther : Variable := ⟨"vu2", "other_var", "string", "x"⟩

def expRunning : Experiment :=
  ⟨"111127", "test_experiment", "Running", [vControl, vVariation], [],
   [("user_1", "control")], [⟨"111128", 5000⟩, ⟨"111129", 10000⟩], none, none⟩

def expPaused : Experiment :=
  ⟨"222", "paused_experiment", "Paused", [vControl], [],
   [("user_1", "control")], [], none, none⟩

def expDangling : Experiment :=
  ⟨"333", "dangling_experiment", "Running", [vControl], [],
   [("user_1", "missing_variation")], [], none, none⟩

def expVars : Experiment :=
  ⟨"444", "vars_experiment", "Running", [vWithVars], [], [], [], none, none⟩

def expGroupA : Experiment :=
  ⟨"ga", "group_exp_a", "Running", [vControl], [], [], [], none, none⟩

def expGroupB : Experiment :=
  ⟨"gb", "group_exp_b", "Running", [vVariation], [], [], [], none, none⟩

def grpG : Group := ⟨"g1", "random", [expGroupA, expGroupB], [⟨"ga", 5000⟩, ⟨"gb", 10000⟩]⟩

def layerExp1 : Experiment :=
  ⟨"le1", "rollout_exp_1", "Running", [vControl], [], [], [], none, none⟩

def layerExp2 : Experiment :=
  ⟨"le2", "rollout_exp_2", "Running", [vRoll], [], [], [], none, none⟩

def layerRoll : Layer := ⟨"layer1", [layerExp1, layerExp2]⟩

/-- A layer referencing an experiment key absent from the config index
(such a layer is not part of `datafileRich`). -/
def expGhost : Experiment :=
  ⟨"ghost_id", "ghost_experiment", "Running", [], [], [], [], none, none⟩

def layerBad : Layer := ⟨"layerX", [expGhost, layerExp2]⟩

def featMutex : Feature := ⟨"f1", "feature_mutex", ["ga"], none, none, []⟩

def featRoll : Feature := ⟨"f2", "feature_roll", [], some "layer1", none, []⟩

def datafileRich : Datafile :=
  ⟨some "2", [grpG], [expRunning, expPaused, expDangling, expVars],
   [layerRoll], [featMutex, featRoll]⟩

def cfgRich : ProjectConfig :=
  (ProjectConfig.init datafileRich).toOption.getD ⟨false, none, none⟩

def datafileV1 : Datafile := ⟨some "1", [], [expRunning], [], []⟩

/-- A baseline environment: no sticky store, always-true audience, bucketer
that assigns nothing. -/
def envBase : DecisionEnv :=
  { hasUps := false
    lookup := fun _ => .invalid
    save := fun _ => none
    audience := fun _ _ _ => true
    bucket := fun _ _ => none
    find_bucket := fun _ _ _ => none }

/-- Environment for the store-failure scenario: lookup raises, the user
buckets into the fixture variation, and the save raises too. -/
def envC4 : DecisionEnv :=
  { envBase with
    hasUps := true
    lookup := fun _ => .fail "major problem"
    bucket := fun _ _ => some vVariation
    save := fun _ => some "disk full" }

/-- Environment for the rollout scenario: the bucketer assigns the rollout
variation only in the second layer experiment. -/
def envLayer : DecisionEnv :=
  { envBase with bucket := fun e _ => if e.id == "le2" then some vRoll else none }

/-- The lookup maps of the rich fixture config. -/
def cfgRichMaps : ConfigMaps :=
  cfgRich.maps.getD ⟨[], [], [], [], [], [], [], []⟩

/-- Environment for the mutex-group scenario: group bucketing selects the
second group experiment. -/
def envC6 : DecisionEnv :=
  { envBase with find_bucket := fun _ _ _ => some "gb" }

/-- Environment for the round-trip scenario: a sticky store with no prior
profile, a bucketer assigning the fixture variation, and a succeeding
save. -/
def envC7 : DecisionEnv :=
  { envBase with
    hasUps := true
    bucket := fun _ _ => some vVariation }

/-- The mutex feature as stored in the fixture config after group-id
inheritance. -/
def featMutexStored : Feature := ⟨"f1", "feature_mutex", ["ga"], none, some "g1", []⟩

/-- The second group experiment as stored in the fixture config after group
annotation. -/
def expGroupBStored : Experiment :=
  ⟨"gb", "group_exp_b", "Running", [vVariation], [], [], [], some "g1", some "random"⟩

/-- C1: for every experiment whose status is not Running, `get_variation`
returns none and its whole effect trace is the single not-running INFO log:
no forced-variation check, no stored-decision lookup, no audience
evaluation, no bucketing and no persistence write occur. -/
theorem c1_not_running_returns_none_single_log
    (c : ProjectConfig) (env : DecisionEnv) (e : Experiment) (user_id : String)
    (attributes : Attributes) (ignore_user_profile : Bool)
    (h : e.status ≠ "Running") :
    get_variation c env (some e) user_id attributes ignore_user_profile =
      .ok (none, [.log .INFO ("Experiment \"" ++ e.key ++ "\" is not running.")]) := by
  simp [get_variation, is_experiment_running, h]

/-- C1 witness: the paused fixture experiment under the baseline
environment. -/
theorem c1_witness :
    expPaused.status ≠ "Running" ∧
    get_variation cfgRich envBase (some expPaused) "test_user" none false =
      .ok (none, [.log .INFO ("Experiment \"" ++ expPaused.key ++ "\" is not running.")]) :=
  ⟨by decide,
   c1_not_running_returns_none_single_log cfgRich envBase expPaused "test_user" none false
     (by decide)⟩

/-- C2: for a running experiment whose forced-variation map sends the user id
to a variation key that resolves in the config index, `get_variation` returns
that variation and its trace is exactly the forced-check marker plus the
forced INFO log — in particular the sticky store is never read and the
bucketer is never called. -/
theorem c2_forced_variation_wins
    (c : ProjectConfig) (env : DecisionEnv) (e : Experiment) (user_id : String)
    (attributes : Attributes) (ignore_user_profile : Bool)
    (variation_key : String) (v : Variation)
    (hrun : e.status = "Running")
    (hforced : dictLookup e.forcedVariations user_id = some variation_key)
    (hres : c.get_variation_from_key e.key variation_key = .ok (some v, [])) :
    get_variation c env (some e) user_id attributes ignore_user_profile =
      .ok (some v, [.forcedCheck user_id,
        .log .INFO ("User \"" ++ user_id ++ "\" is forced in variation \"" ++ variation_key ++ "\".")]) := by
  simp [get_variation, is_experiment_running, hrun, get_forced_variation, hforced, hres]

/-- C2 witness: user_1 is forced into "control" of the running fixture
experiment. -/
theorem c2_witness :
    expRunning.status = "Running" ∧
    dictLookup expRunning.forcedVariations "user_1" = some "control" ∧
    cfgRich.get_variation_from_key expRunning.key "control" = .ok (some vControl, []) ∧
    get_variation cfgRich envBase (some expRunning) "user_1" none false =
      .ok (some vControl, [.forcedCheck "user_1",
        .log .INFO ("User \"" ++ "user_1" ++ "\" is forced in variation \"" ++ "control" ++ "\".")]) :=
  ⟨by decide, by decide, by decide,
   c2_forced_variation_wins cfgRich envBase expRunning "user_1" none false "control" vControl
     (by decide) (by decide) (by decide)⟩

/-- C3 counterexample: on the version-"1" document the index is marked
unparsed, and `get_experiment_from_key` then raises an AttributeError for the
never-created `experiment_key_map` attribute instead of reporting "not
found" with an absent result — refuting the claim that every subsequent
getter reports "not found" without raising an upstream failure. -/
theorem c3_counterexample :
    ProjectConfig.init datafileV1 = .ok ⟨false, some "1", none⟩ ∧
    ProjectConfig.get_experiment_from_key ⟨false, some "1", none⟩ "test_experiment" =
      .error (.attributeError "experiment_key_map") :=
  ⟨rfl, rfl⟩

/-- C3 amended: when the document's version is in the unsupported set, the
index is marked unparsed (`parsing_succeeded` is false and no lookup maps are
built), and every subsequent `get_experiment_from_key` call raises an
AttributeError for the missing map attribute rather than returning an absent
result. -/
theorem c3_amended_unsupported_version_getters_raise
    (d : Datafile) (v : String) (hv : d.version = some v)
    (hu : v ∈ UNSUPPORTED_VERSIONS) :
    ProjectConfig.init d = .ok ⟨false, some v, none⟩ ∧
    ProjectConfig.was_parsing_successful ⟨false, some v, none⟩ = false ∧
    ∀ k, ProjectConfig.get_experiment_from_key ⟨false, some v, none⟩ k =
      .error (.attributeError "experiment_key_map") := by
  simp only [UNSUPPORTED_VERSIONS, V1_CONFIG_VERSION, List.mem_singleton] at hu
  subst hu
  refine ⟨?_, rfl, fun k => rfl⟩
  simp [ProjectConfig.init, hv, UNSUPPORTED_VERSIONS, V1_CONFIG_VERSION]

/-- C3 amended witness: the version-"1" fixture document. -/
theorem c3_amended_witness :
    datafileV1.version = some "1" ∧ "1" ∈ UNSUPPORTED_VERSIONS ∧
    ProjectConfig.init datafileV1 = .ok ⟨false, some "1", none⟩ :=
  ⟨rfl, by decide,
   (c3_amended_unsupported_version_getters_raise datafileV1 "1" rfl (by decide)).1⟩

/-- C4: a failing sticky-store lookup is caught inside `get_variation`,
logged at ERROR with the captured message, and never propagated; the
pipeline proceeds to the audience check and bucketing as if no profile
existed, on successful bucketing it still attempts the save, and a failing
save is logged at ERROR while the already-chosen variation remains the
result. The second conjunct states the absence equivalence: the returned
value is the same as with a lookup that merely returns no valid profile. -/
theorem c4_store_failures_caught_and_logged
    (c : ProjectConfig) (env : DecisionEnv) (e : Experiment) (user_id : String)
    (attributes : Attributes) (lookup_msg save_msg : String) (v : Variation)
    (hrun : e.status = "Running")
    (hforced : dictLookup e.forcedVariations user_id = none)
    (hups : env.hasUps = true)
    (hlk : env.lookup user_id = .fail lookup_msg)
    (haud : env.audience c e attributes = true)
    (hbk : env.bucket e user_id = some v)
    (hsv : env.save (UserProfile.save_variation_for_experiment ⟨user_id, []⟩ e.id v.id) =
      some save_msg) :
    get_variation c env (some e) user_id attributes false =
      .ok (some v, [.forcedCheck user_id, .upsLookupCall user_id,
        .log .ERROR ("Unable to retrieve user profile for user \"" ++ user_id ++
          "\" as lookup failed. Error: " ++ lookup_msg),
        .log .WARNING "User profile has invalid format.",
        .audienceCall e.id, .bucketCall e.id user_id,
        .upsSaveCall (UserProfile.save_variation_for_experiment ⟨user_id, []⟩ e.id v.id),
        .log .ERROR ("Unable to save user profile for user \"" ++ user_id ++
          "\". Error: " ++ save_msg)]) ∧
    Except.map Prod.fst (get_variation c env (some e) user_id attributes false) =
      Except.map Prod.fst
        (get_variation c { env with lookup := fun _ => .invalid } (some e) user_id attributes false) := by
  constructor
  · simp [get_variation, is_experiment_running, hrun, get_forced_variation, hforced, hups,
      hlk, bucket_and_store, haud, hbk, hsv]
  · simp [get_variation, is_experiment_running, hrun, get_forced_variation, hforced, hups,
      hlk, bucket_and_store, haud, hbk, hsv, Except.map]

/-- C4 witness: lookup raising "major problem" and save raising "disk full"
for user test_user, who buckets into the fixture variation. -/
theorem c4_witness :
    expRunning.status = "Running" ∧
    get_variation cfgRich envC4 (some expRunning) "test_user" none false =
      .ok (some vVariation, [.forcedCheck "test_user", .upsLookupCall "test_user",
        .log .ERROR ("Unable to retrieve user profile for user \"" ++ "test_user" ++
          "\" as lookup failed. Error: " ++ "major problem"),
        .log .WARNING "User profile has invalid format.",
        .audienceCall expRunning.id, .bucketCall expRunning.id "test_user",
        .upsSaveCall (UserProfile.save_variation_for_experiment ⟨"test_user", []⟩
          expRunning.id vVariation.id),
        .log .ERROR ("Unable to save user profile for user \"" ++ "test_user" ++
          "\". Error: " ++ "disk full")]) :=
  ⟨by decide,
   (c4_store_failures_caught_and_logged cfgRich envC4 expRunning "test_user" none
     "major problem" "disk full" vVariation
     (by decide) (by decide) (by decide) (by decide) (by decide) (by decide) (by decide)).1⟩

/-- `noStickyTrace` distributes over append. -/
theorem noSticky_append (a b : List Effect) :
    noStickyTrace (a ++ b) = (noStickyTrace a && noStickyTrace b) := by
  simp [noStickyTrace, List.all_append]

/-- `noStickyTrace` on a cons. -/
theorem noSticky_cons (x : Effect) (a : List Effect) :
    noStickyTrace (x :: a) = (!x.touchesUps && noStickyTrace a) := by
  simp [noStickyTrace]

/-- A reporting-only trace touches the sticky store in no way. -/
theorem onlyReporting_noSticky (t : List Effect) (h : onlyReporting t = true) :
    noStickyTrace t = true := by
  simp only [onlyReporting, List.all_eq_true] at h
  simp only [noStickyTrace, List.all_eq_true]
  intro eff heff
  have h2 := h eff heff
  cases eff <;> simp_all [Effect.touchesUps]

/-- `get_variation_from_key` only logs and reports: its trace holds no
collaborator calls. -/
theorem get_variation_from_key_onlyReporting (c : ProjectConfig) (ek vk : String)
    (r : Option Variation) (t : List Effect)
    (h : c.get_variation_from_key ek vk = .ok (r, t)) : onlyReporting t = true := by
  rcases hm : c.maps with _ | m <;>
    simp only [ProjectConfig.get_variation_from_key, ProjectConfig.getMaps, hm] at h
  · cases h
  · rcases h1 : dictLookup m.variation_key_map ek with _ | vmap <;> simp only [h1] at h
    · simp only [Except.ok.injEq, Prod.mk.injEq] at h
      obtain ⟨-, rfl⟩ := h
      rfl
    · rcases h2 : dictLookup vmap vk with _ | v <;> simp only [h2] at h <;>
        simp only [Except.ok.injEq, Prod.mk.injEq] at h <;> obtain ⟨-, rfl⟩ := h <;> rfl

/-- `get_variation_from_id` only logs and reports. -/
theorem get_variation_from_id_onlyReporting (c : ProjectConfig) (ek vid : String)
    (r : Option Variation) (t : List Effect)
    (h : c.get_variation_from_id ek vid = .ok (r, t)) : onlyReporting t = true := by
  rcases hm : c.maps with _ | m <;>
    simp only [ProjectConfig.get_variation_from_id, ProjectConfig.getMaps, hm] at h
  · cases h
  · rcases h1 : dictLookup m.variation_id_map ek with _ | vmap <;> simp only [h1] at h
    · simp only [Except.ok.injEq, Prod.mk.injEq] at h
      obtain ⟨-, rfl⟩ := h
      rfl
    · rcases h2 : dictLookup vmap vid with _ | v <;> simp only [h2] at h <;>
        simp only [Except.ok.injEq, Prod.mk.injEq] at h <;> obtain ⟨-, rfl⟩ := h <;> rfl

/-- `get_experiment_from_key` only logs and reports. -/
theorem get_experiment_from_key_onlyReporting (c : ProjectConfig) (k : String)
    (r : Option Experiment) (t : List Effect)
    (h : c.get_experiment_from_key k = .ok (r, t)) : onlyReporting t = true := by
  rcases hm : c.maps with _ | m <;>
    simp only [ProjectConfig.get_experiment_from_key, ProjectConfig.getMaps, hm] at h
  · cases h
  · rcases h1 : dictLookup m.experiment_key_map k with _ | e <;> simp only [h1] at h <;>
      simp only [Except.ok.injEq, Prod.mk.injEq] at h <;> obtain ⟨-, rfl⟩ := h <;> rfl

/-- `get_layer_from_id` only logs. -/
theorem get_layer_from_id_onlyReporting (c : ProjectConfig) (lid : String)
    (r : Option Layer) (t : List Effect)
    (h : c.get_layer_from_id lid = .ok (r, t)) : onlyReporting t = true := by
  rcases hm : c.maps with _ | m <;>
    simp only [ProjectConfig.get_layer_from_id, ProjectConfig.getMaps, hm] at h
  · cases h
  · rcases h1 : dictLookup m.layer_id_map lid with _ | l <;> simp only [h1] at h <;>
      simp only [Except.ok.injEq, Prod.mk.injEq] at h <;> obtain ⟨-, rfl⟩ := h <;> rfl

/-- The forced-variation stage never touches the sticky store. -/
theorem get_forced_variation_noSticky (c : ProjectConfig) (e : Experiment)
    (uid : String) (r : Option Variation) (t : List Effect)
    (h : get_forced_variation c e uid = .ok (r, t)) : noStickyTrace t = true := by
  unfold get_forced_variation at h
  rcases hf : dictLookup e.forcedVariations uid with _ | vkey <;> simp only [hf] at h
  · simp only [Except.ok.injEq, Prod.mk.injEq] at h
    obtain ⟨-, rfl⟩ := h
    rfl
  · rcases hres : c.get_variation_from_key e.key vkey with err | pr <;> simp only [hres] at h
    · cases h
    · obtain ⟨vOpt, effs⟩ := pr
      have hrep := onlyReporting_noSticky effs
        (get_variation_from_key_onlyReporting c e.key vkey vOpt effs hres)
      cases vOpt <;> simp only [Except.ok.injEq, Prod.mk.injEq] at h <;>
          obtain ⟨-, rfl⟩ := h
      · exact hrep
      · rw [noSticky_append, hrep]
        rfl

/-- With the profile ignored, the bucketing tail never touches the sticky
store. -/
theorem bucket_and_store_ignore_noSticky (c : ProjectConfig) (env : DecisionEnv)
    (e : Experiment) (uid : String) (attrs : Attributes) (p : UserProfile) :
    noStickyTrace (bucket_and_store c env e uid attrs true p).2 = true := by
  unfold bucket_and_store
  cases env.audience c e attrs <;> cases hbk : env.bucket e uid <;>
    simp [noStickyTrace, Effect.touchesUps, hbk]

/-- With `ignore_user_profile = true` the whole pipeline neither reads nor
writes the sticky store. -/
theorem get_variation_ignore_noSticky (c : ProjectConfig) (env : DecisionEnv)
    (expOpt : Option Experiment) (uid : String) (attrs : Attributes)
    (r : Option Variation) (t : List Effect)
    (h : get_variation c env expOpt uid attrs true = .ok (r, t)) :
    noStickyTrace t = true := by
  cases expOpt with
  | none => simp [get_variation] at h
  | some e =>
    simp only [get_variation] at h
    cases hrun : is_experiment_running e with
    | false =>
      rw [hrun] at h
      simp only [Bool.not_false, if_true, Except.ok.injEq, Prod.mk.injEq] at h
      obtain ⟨-, rfl⟩ := h
      rfl
    | true =>
      rw [hrun] at h
      simp only [Bool.not_true, Bool.false_eq_true, if_false] at h
      rcases hf : get_forced_variation c e uid with err | pr <;> simp only [hf] at h
      · cases h
      · obtain ⟨vOpt, effs⟩ := pr
        have heffs := get_forced_variation_noSticky c e uid vOpt effs hf
        cases vOpt with
        | some v =>
          simp only [Except.ok.injEq, Prod.mk.injEq] at h
          obtain ⟨-, rfl⟩ := h
          simp [noSticky_cons, heffs, Effect.touchesUps]
        | none =>
          simp only [Bool.not_true, Bool.false_and, Bool.false_eq_true, if_false,
            Except.ok.injEq, Prod.mk.injEq] at h
          obtain ⟨-, rfl⟩ := h
          have hbs := bucket_and_store_ignore_noSticky c env e uid attrs ⟨uid, []⟩
          simp [noSticky_append, noSticky_cons, heffs, hbs, Effect.touchesUps]

/-- With the profile ignored, the layer loop never touches the sticky
store. -/
theorem layer_loop_ignore_noSticky (c : ProjectConfig) (env : DecisionEnv)
    (uid : String) (attrs : Attributes) (exps : List Experiment)
    (r : Option Variation) (t : List Effect)
    (h : layer_experiments_loop c env uid attrs true exps = .ok (r, t)) :
    noStickyTrace t = true := by
  induction exps generalizing r t with
  | nil =>
    simp only [layer_experiments_loop, Except.ok.injEq, Prod.mk.injEq] at h
    obtain ⟨-, rfl⟩ := h
    rfl
  | cons ref rest ih =>
    unfold layer_experiments_loop at h
    rcases h1 : c.get_experiment_from_key ref.key with err | pr <;> simp only [h1] at h
    · cases h
    · obtain ⟨eOpt, effsA⟩ := pr
      have hA := onlyReporting_noSticky effsA
        (get_experiment_from_key_onlyReporting c ref.key eOpt effsA h1)
      rcases h2 : get_variation c env eOpt uid attrs true with err | pr2 <;>
        simp only [h2] at h
      · cases h
      · obtain ⟨vOpt, effsB⟩ := pr2
        have hB := get_variation_ignore_noSticky c env eOpt uid attrs vOpt effsB h2
        cases vOpt with
        | some v =>
          cases eOpt with
          | none => simp [get_variation] at h2
          | some e =>
            simp only [Except.ok.injEq, Prod.mk.injEq] at h
            obtain ⟨-, rfl⟩ := h
            rw [noSticky_append, noSticky_append, hA, hB]
            rfl
        | none =>
          rcases h3 : layer_experiments_loop c env uid attrs true rest with err | pr3 <;>
            simp only [h3] at h
          · cases h
          · obtain ⟨r3, effsC⟩ := pr3
            have hC := ih r3 effsC h3
            simp only [Except.ok.injEq, Prod.mk.injEq] at h
            obtain ⟨-, rfl⟩ := h
            rw [noSticky_append, noSticky_append, hA, hB, hC]
            rfl

/-- One skipped step of the layer loop: a reference that resolves and
decides to none only contributes its effects. -/
theorem layer_loop_cons_none (c : ProjectConfig) (env : DecisionEnv)
    (uid : String) (attrs : Attributes) (ig : Bool) (r : Experiment)
    (rest : List Experiment) (eOpt : Option Experiment) (effsA effsB : List Effect)
    (h1 : c.get_experiment_from_key r.key = .ok (eOpt, effsA))
    (h2 : get_variation c env eOpt uid attrs ig = .ok (none, effsB)) :
    layer_experiments_loop c env uid attrs ig (r :: rest) =
      Except.map (fun p => (p.1, (effsA ++ effsB) ++ p.2))
        (layer_experiments_loop c env uid attrs ig rest) := by
  conv_lhs => rw [layer_experiments_loop]
  simp only [h1, h2]
  cases h : layer_experiments_loop c env uid attrs ig rest <;>
    simp [h, Except.map, List.append_assoc]

/-- A run of the layer loop over references that all resolve and decide to
none is a pure effect prelude: the loop over `pre ++ rest` equals the loop
over `rest` with those effects prepended. -/
theorem layer_loop_skip (c : ProjectConfig) (env : DecisionEnv) (uid : String)
    (attrs : Attributes) (ig : Bool) (pre rest : List Experiment)
    (hpre : ∀ r ∈ pre, ∃ eOpt effsA effsB,
      c.get_experiment_from_key r.key = .ok (eOpt, effsA) ∧
      get_variation c env eOpt uid attrs ig = .ok (none, effsB)) :
    ∃ effs0, layer_experiments_loop c env uid attrs ig (pre ++ rest) =
      Except.map (fun p => (p.1, effs0 ++ p.2))
        (layer_experiments_loop c env uid attrs ig rest) := by
  induction pre with
  | nil =>
    refine ⟨[], ?_⟩
    rw [List.nil_append]
    cases h : layer_experiments_loop c env uid attrs ig rest <;> simp [h, Except.map]
  | cons r pre ih =>
    obtain ⟨eOpt, effsA, effsB, h1, h2⟩ := hpre r (by simp)
    obtain ⟨effs0, ih2⟩ := ih (fun r2 hr2 => hpre r2 (by simp [hr2]))
    refine ⟨(effsA ++ effsB) ++ effs0, ?_⟩
    rw [List.cons_append, layer_loop_cons_none c env uid attrs ig r (pre ++ rest) eOpt effsA effsB h1 h2, ih2]
    cases h : layer_experiments_loop c env uid attrs ig rest <;>
      simp [h, Except.map, List.append_assoc]

/-- C5: the layer loop walks the declared order and returns the first
non-none pipeline result (conjunct 1); a feature with only a layer id
resolves through `get_variation_for_layer` with `ignore_user_profile = true`
(conjunct 2); and any rollout-mode layer resolution produces a trace that
neither reads nor writes the sticky store (conjunct 3). -/
theorem c5_layer_cascade_order_and_rollout_ignores_profile
    (c : ProjectConfig) (env : DecisionEnv) (user_id : String)
    (attributes : Attributes) (ignore_user_profile : Bool) (l : Layer)
    (pre : List Experiment) (ref : Experiment) (post : List Experiment)
    (e : Experiment) (effsA effsB : List Effect) (v : Variation) (f : Feature)
    (layer_id : String)
    (hexps : l.experiments = pre ++ ref :: post)
    (hpre : ∀ r ∈ pre, ∃ eOpt effsA2 effsB2,
      c.get_experiment_from_key r.key = .ok (eOpt, effsA2) ∧
      get_variation c env eOpt user_id attributes ignore_user_profile = .ok (none, effsB2))
    (href : c.get_experiment_from_key ref.key = .ok (some e, effsA))
    (hv : get_variation c env (some e) user_id attributes ignore_user_profile =
      .ok (some v, effsB))
    (hg : f.groupId = none) (hids : f.experimentIds = [])
    (hlid : f.layerId = some layer_id) :
    (∃ t, get_variation_for_layer c env (some l) user_id attributes ignore_user_profile =
      .ok (some v, t)) ∧
    (∀ layerOpt effsL, c.get_layer_from_id layer_id = .ok (layerOpt, effsL) →
      get_variation_for_feature c env f user_id attributes =
        Except.map (fun p => (p.1, effsL ++ p.2))
          (get_variation_for_layer c env layerOpt user_id attributes true)) ∧
    (∀ layerOpt r t,
      get_variation_for_layer c env layerOpt user_id attributes true = .ok (r, t) →
      noStickyTrace t = true) := by
  refine ⟨?_, ?_, ?_⟩
  · obtain ⟨effs0, hskip⟩ :=
      layer_loop_skip c env user_id attributes ignore_user_profile pre (ref :: post) hpre
    have hstep : layer_experiments_loop c env user_id attributes ignore_user_profile
        (ref :: post) = .ok (some v, effsA ++ effsB ++
          [.log .DEBUG ("User \"" ++ user_id ++ "\" is in variation " ++ v.key ++
            " of experiment " ++ e.key ++ ".")]) := by
      conv_lhs => rw [layer_experiments_loop]
      simp [href, hv]
    refine ⟨effs0 ++ (effsA ++ effsB ++
      [.log .DEBUG ("User \"" ++ user_id ++ "\" is in variation " ++ v.key ++
        " of experiment " ++ e.key ++ ".")]), ?_⟩
    simp only [get_variation_for_layer, hexps]
    rw [hskip, hstep]
    rfl
  · intro layerOpt effsL hL
    simp only [get_variation_for_feature, hg, hids, hlid, hL]
    cases h : get_variation_for_layer c env layerOpt user_id attributes true <;>
      simp [h, Except.map]
  · intro layerOpt r t h
    cases layerOpt with
    | none =>
      simp only [get_variation_for_layer, Except.ok.injEq, Prod.mk.injEq] at h
      obtain ⟨-, rfl⟩ := h
      rfl
    | some l2 =>
      exact layer_loop_ignore_noSticky c env user_id attributes l2.experiments r t h

/-- C5 witness: the fixture rollout layer, where the user qualifies for the
second of its two experiments, and the layer-only fixture feature. -/
theorem c5_witness :
    layerRoll.experiments = [layerExp1] ++ layerExp2 :: [] ∧
    featRoll.layerId = some "layer1" ∧
    (∃ t, get_variation_for_layer cfgRich envLayer (some layerRoll) "test_user" none true =
      .ok (some vRoll, t)) :=
  ⟨by decide, by decide,
   (c5_layer_cascade_order_and_rollout_ignores_profile cfgRich envLayer "test_user" none
     true layerRoll [layerExp1] layerExp2 [] layerExp2 [] [.forcedCheck "test_user",
       .audienceCall "le2", .bucketCall "le2" "test_user"] vRoll featRoll "layer1"
     (by decide)
     (by
       intro r hr
       simp only [List.mem_singleton] at hr
       subst hr
       exact ⟨some layerExp1, [],
         [.forcedCheck "test_user", .audienceCall "le1", .bucketCall "le1" "test_user"],
         by decide, by decide⟩)
     (by decide) (by decide) (by decide) (by decide) (by decide)).1⟩

/-- C10: a layer reference whose key is not in the experiment index is not
skipped: `get_experiment_from_key` reports and returns an absent experiment,
which `get_variation` dereferences (status access on None) and raises, so
the layer cascade fails instead of completing past the unresolvable
reference. -/
theorem c10_unresolvable_layer_reference_fails
    (c : ProjectConfig) (env : DecisionEnv) (user_id : String)
    (attributes : Attributes) (ignore_user_profile : Bool) (l : Layer)
    (pre : List Experiment) (ref : Experiment) (post : List Experiment)
    (m : ConfigMaps)
    (hexps : l.experiments = pre ++ ref :: post)
    (hpre : ∀ r ∈ pre, ∃ eOpt effsA effsB,
      c.get_experiment_from_key r.key = .ok (eOpt, effsA) ∧
      get_variation c env eOpt user_id attributes ignore_user_profile = .ok (none, effsB))
    (hm : c.maps = some m)
    (href : dictLookup m.experiment_key_map ref.key = none) :
    get_variation_for_layer c env (some l) user_id attributes ignore_user_profile =
      .error (.attributeError "status") := by
  obtain ⟨effs0, hskip⟩ :=
    layer_loop_skip c env user_id attributes ignore_user_profile pre (ref :: post) hpre
  have hgefk : c.get_experiment_from_key ref.key = .ok (none,
      [.log .ERROR ("Experiment key \"" ++ ref.key ++ "\" is not in datafile."),
       .handleError "InvalidExperimentException"]) := by
    simp [ProjectConfig.get_experiment_from_key, ProjectConfig.getMaps, hm, href]
  have hstep : layer_experiments_loop c env user_id attributes ignore_user_profile
      (ref :: post) = .error (.attributeError "status") := by
    conv_lhs => rw [layer_experiments_loop]
    simp [hgefk, get_variation]
  simp only [get_variation_for_layer, hexps]
  rw [hskip, hstep]
  rfl

/-- C10 witness: the layer whose first reference names the ghost experiment
absent from the fixture config. -/
theorem c10_witness :
    dictLookup cfgRichMaps.experiment_key_map expGhost.key = none ∧
    get_variation_for_layer cfgRich envBase (some layerBad) "test_user" none false =
      .error (.attributeError "status") :=
  ⟨by decide,
   c10_unresolvable_layer_reference_fails cfgRich envBase "test_user" none false
     layerBad [] expGhost [layerExp2] cfgRichMaps
     (by decide)
     (by intro r hr; cases hr)
     (by decide) (by decide)⟩

/-- C6: when a feature has a group id and the user buckets into a group
experiment whose id is not among the feature's associated experiment ids,
no experiment-based variation is produced: with no layer id the result is
none (with only the group-resolution effects), and with a layer id the call
falls through to rollout resolution over that layer. -/
theorem c6_group_experiment_must_be_associated
    (c : ProjectConfig) (env : DecisionEnv) (f : Feature) (user_id : String)
    (attributes : Attributes) (gid : String) (g : Group) (e : Experiment)
    (effsG effsE : List Effect)
    (hg : f.groupId = some gid)
    (hgrp : c.get_group gid = .ok (some g, effsG))
    (heig : get_experiment_in_group c env g user_id = .ok (some e, effsE))
    (hnot : f.experimentIds.contains e.id = false) :
    (f.layerId = none →
      get_variation_for_feature c env f user_id attributes = .ok (none, effsG ++ effsE)) ∧
    (∀ layer_id layerOpt effsL, f.layerId = some layer_id →
      c.get_layer_from_id layer_id = .ok (layerOpt, effsL) →
      get_variation_for_feature c env f user_id attributes =
        Except.map (fun p => (p.1, (effsG ++ effsE) ++ effsL ++ p.2))
          (get_variation_for_layer c env layerOpt user_id attributes true)) := by
  have hnot2 : ¬ (f.experimentIds.contains e.id = true) := by
    rw [hnot]
    simp
  constructor
  · intro hlid
    simp only [get_variation_for_feature, hg, hgrp, heig, hlid]
    rw [if_neg hnot2]
  · intro layer_id layerOpt effsL hlid hL
    simp only [get_variation_for_feature, hg, hgrp, heig, hlid]
    rw [if_neg hnot2]
    simp only [hL]
    cases h : get_variation_for_layer c env layerOpt user_id attributes true <;>
      simp [h, Except.map, List.append_assoc]

/-- C6 witness: the fixture mutex feature; the user buckets into
group_exp_b, which is not among the feature's experiment ids, and the
feature has no layer id, so the result is none. -/
theorem c6_witness :
    featMutexStored.groupId = some "g1" ∧
    featMutexStored.experimentIds.contains expGroupBStored.id = false ∧
    featMutexStored.layerId = none ∧
    get_variation_for_feature cfgRich envC6 featMutexStored "test_user" none =
      .ok (none, [] ++ [.findBucketCall "test_user" "g1",
        .log .INFO ("User \"" ++ "test_user" ++ "\" is in experiment " ++
          expGroupBStored.key ++ " of group " ++ grpG.id ++ ".")]) :=
  ⟨by decide, by decide, by decide,
   (c6_group_experiment_must_be_associated cfgRich envC6 featMutexStored "test_user" none
     "g1" grpG expGroupBStored []
     [.findBucketCall "test_user" "g1",
      .log .INFO ("User \"" ++ "test_user" ++ "\" is in experiment " ++
        expGroupBStored.key ++ " of group " ++ grpG.id ++ ".")]
     (by decide) (by decide) (by decide) (by decide)).1 (by decide)⟩

/-- Helper: with the lookup maps present, the stored-decision stage always
completes without raising (its only failure mode is the missing-attribute
access of an unparsed config). -/
theorem get_stored_variation_ok (c : ProjectConfig) (e : Experiment)
    (p : UserProfile) (m : ConfigMaps) (hm : c.maps = some m) :
    ∃ r t, get_stored_variation c e p = .ok (r, t) := by
  unfold get_stored_variation
  rcases h1 : p.get_variation_for_experiment e.id with _ | vid <;> simp only [h1]
  · exact ⟨none, [], rfl⟩
  · simp only [ProjectConfig.get_variation_from_id, ProjectConfig.getMaps, hm]
    rcases h2 : dictLookup m.variation_id_map e.key with _ | vmap2 <;> simp only [h2]
    · exact ⟨none, _, rfl⟩
    · rcases h3 : dictLookup vmap2 vid with _ | v2 <;> simp only [h3]
      · exact ⟨none, _, rfl⟩
      · exact ⟨some v2, _, rfl⟩

/-- C7: a variation assigned by bucketing is persisted via `save` with the
profile extended by `experiment.id -> variation.id`, and `get_stored_variation`
applied to that saved profile returns the same variation. -/
theorem c7_bucketed_decision_round_trip
    (c : ProjectConfig) (env : DecisionEnv) (e : Experiment) (user_id : String)
    (attributes : Attributes) (v : Variation)
    (hrun : e.status = "Running")
    (hforced : dictLookup e.forcedVariations user_id = none)
    (hups : env.hasUps = true)
    (hlk : env.lookup user_id = .invalid)
    (haud : env.audience c e attributes = true)
    (hbk : env.bucket e user_id = some v)
    (hsv : env.save (UserProfile.save_variation_for_experiment ⟨user_id, []⟩ e.id v.id) = none)
    (hres : c.get_variation_from_id e.key v.id = .ok (some v, [])) :
    get_variation c env (some e) user_id attributes false =
      .ok (some v, [.forcedCheck user_id, .upsLookupCall user_id,
        .log .WARNING "User profile has invalid format.",
        .audienceCall e.id, .bucketCall e.id user_id,
        .upsSaveCall (UserProfile.save_variation_for_experiment ⟨user_id, []⟩ e.id v.id)]) ∧
    get_stored_variation c e (UserProfile.save_variation_for_experiment ⟨user_id, []⟩ e.id v.id) =
      .ok (some v, [.log .INFO ("Found a stored decision. User \"" ++ user_id ++
        "\" is in variation \"" ++ v.key ++ "\" of experiment \"" ++ e.key ++ "\".")]) := by
  constructor
  · simp [get_variation, is_experiment_running, hrun, get_forced_variation, hforced, hups,
      hlk, bucket_and_store, haud, hbk, hsv]
  · simp [get_stored_variation, UserProfile.get_variation_for_experiment,
      UserProfile.save_variation_for_experiment, dictLookup, dictInsert, List.find?, hres]

/-- C7 witness: test_user buckets into the fixture variation of the running
experiment; the profile written by the save round-trips through
`get_stored_variation`. -/
theorem c7_witness :
    expRunning.status = "Running" ∧
    cfgRich.get_variation_from_id expRunning.key vVariation.id = .ok (some vVariation, []) ∧
    get_stored_variation cfgRich expRunning
      (UserProfile.save_variation_for_experiment ⟨"test_user", []⟩ expRunning.id vVariation.id) =
      .ok (some vVariation, [.log .INFO ("Found a stored decision. User \"" ++ "test_user" ++
        "\" is in variation \"" ++ vVariation.key ++ "\" of experiment \"" ++
        expRunning.key ++ "\".")]) :=
  ⟨by decide, by decide,
   (c7_bucketed_decision_round_trip cfgRich envC7 expRunning "test_user" none vVariation
     (by decide) (by decide) (by decide) (by decide) (by decide) (by decide) (by decide)
     (by decide)).2⟩

/-- C8: `get_variable_value_for_variation` returns None when either argument
is absent and when the variation has no recorded usage map (after an ERROR
log); when the usage map exists but lacks the variable's id, the required-key
access raises a KeyError to the caller instead of returning None. -/
theorem c8_variable_value_absent_inputs_and_missing_key
    (c : ProjectConfig) (m : ConfigMaps) (vbl : Variable) (vrn : Variation)
    (hm : c.maps = some m) :
    (∀ w, c.get_variable_value_for_variation none w = .ok (none, [])) ∧
    (c.get_variable_value_for_variation (some vbl) none = .ok (none, [])) ∧
    (dictLookup m.variation_variable_usage_map vrn.id = none →
      c.get_variable_value_for_variation (some vbl) (some vrn) = .ok (none,
        [.log .ERROR ("Variation with ID \"" ++ vrn.id ++ "\" is not in the datafile.")])) ∧
    (∀ usages, dictLookup m.variation_variable_usage_map vrn.id = some usages →
      dictLookup usages vbl.id = none →
      c.get_variable_value_for_variation (some vbl) (some vrn) = .error (.keyError vbl.id)) := by
  refine ⟨?_, ?_, ?_, ?_⟩
  · intro w
    cases w <;> rfl
  · rfl
  · intro h
    simp [ProjectConfig.get_variable_value_for_variation, ProjectConfig.getMaps, hm, h]
  · intro usages h1 h2
    simp [ProjectConfig.get_variable_value_for_variation, ProjectConfig.getMaps, hm, h1, h2]

/-- C8 witness: in the fixture config, var_variation records a usage for
variable vu1 only, so querying the other variable raises KeyError "vu2". -/
theorem c8_witness :
    cfgRich.maps = some cfgRichMaps ∧
    dictLookup cfgRichMaps.variation_variable_usage_map vWithVars.id =
      some [("vu1", usageCool)] ∧
    dictLookup [("vu1", usageCool)] varOther.id = none ∧
    cfgRich.get_variable_value_for_variation (some varOther) (some vWithVars) =
      .error (.keyError varOther.id) :=
  ⟨by decide, by decide, by decide,
   (c8_variable_value_absent_inputs_and_missing_key cfgRich cfgRichMaps varOther vWithVars
     (by decide)).2.2.2 [("vu1", usageCool)] (by decide) (by decide)⟩

/-- C9 counterexample: the dangling forced entry of the fixture experiment
is not silent — the run's trace holds the ERROR log and the error-handler
invocation with the invalid-variation error, refuting "falls through ...
without signaling a configuration error" (the fall-through itself does
happen: the audience and bucketing stages run). -/
theorem c9_counterexample :
    get_variation cfgRich envBase (some expDangling) "user_1" none false =
      .ok (none, [.forcedCheck "user_1",
        .log .ERROR ("Variation key \"" ++ "missing_variation" ++ "\" is not in datafile."),
        .handleError "InvalidVariationException",
        .audienceCall "333", .bucketCall "333" "user_1"]) ∧
    Effect.handleError "InvalidVariationException" ∈
      [Effect.forcedCheck "user_1",
        .log .ERROR ("Variation key \"" ++ "missing_variation" ++ "\" is not in datafile."),
        .handleError "InvalidVariationException",
        .audienceCall "333", .bucketCall "333" "user_1"] := by
  constructor
  · decide
  · decide

/-- C9 amended: a forced-variation entry naming a nonexistent variation key
yields no forced result and the call falls through to the stored-decision,
audience and bucketing stages without failing, but not silently: the
unresolved key is reported via an ERROR log and an error-handler invocation
with the invalid-variation error. -/
theorem c9_amended_dangling_forced_reports_then_falls_through
    (c : ProjectConfig) (env : DecisionEnv) (e : Experiment) (user_id : String)
    (attributes : Attributes) (m : ConfigMaps) (vmap : List (String × Variation))
    (vkey : String)
    (hrun : e.status = "Running")
    (hforced : dictLookup e.forcedVariations user_id = some vkey)
    (hm : c.maps = some m)
    (hvm : dictLookup m.variation_key_map e.key = some vmap)
    (hv : dictLookup vmap vkey = none)
    (hups : env.hasUps = true) :
    get_forced_variation c e user_id = .ok (none,
      [.log .ERROR ("Variation key \"" ++ vkey ++ "\" is not in datafile."),
       .handleError "InvalidVariationException"]) ∧
    (∃ r t, get_variation c env (some e) user_id attributes false = .ok (r, t) ∧
      Effect.handleError "InvalidVariationException" ∈ t ∧
      Effect.upsLookupCall user_id ∈ t) := by
  have hfv : get_forced_variation c e user_id = .ok (none,
      [.log .ERROR ("Variation key \"" ++ vkey ++ "\" is not in datafile."),
       .handleError "InvalidVariationException"]) := by
    simp [get_forced_variation, hforced, ProjectConfig.get_variation_from_key,
      ProjectConfig.getMaps, hm, hvm, hv]
  refine ⟨hfv, ?_⟩
  cases hlk : env.lookup user_id with
  | fail msg =>
    simp only [get_variation, is_experiment_running, hrun, hfv, hups, hlk,
      beq_self_eq_true, Bool.not_true, Bool.false_eq_true, if_false, Bool.not_false,
      Bool.true_and, if_true]
    refine ⟨_, _, rfl, ?_, ?_⟩ <;> simp
  | invalid =>
    simp only [get_variation, is_experiment_running, hrun, hfv, hups, hlk,
      beq_self_eq_true, Bool.not_true, Bool.false_eq_true, if_false, Bool.not_false,
      Bool.true_and, if_true]
    refine ⟨_, _, rfl, ?_, ?_⟩ <;> simp
  | valid p =>
    obtain ⟨r2, t2, hst⟩ := get_stored_variation_ok c e p m hm
    simp only [get_variation, is_experiment_running, hrun, hfv, hups, hlk,
      beq_self_eq_true, Bool.not_true, Bool.false_eq_true, if_false, Bool.not_false,
      Bool.true_and, if_true, hst]
    cases r2 with
    | some v2 =>
      refine ⟨_, _, rfl, ?_, ?_⟩ <;> simp
    | none =>
      refine ⟨_, _, rfl, ?_, ?_⟩ <;> simp

/-- C9 amended witness: the dangling fixture experiment with a present
sticky store. -/
theorem c9_amended_witness :
    expDangling.status = "Running" ∧
    dictLookup expDangling.forcedVariations "user_1" = some "missing_variation" ∧
    get_forced_variation cfgRich expDangling "user_1" = .ok (none,
      [.log .ERROR ("Variation key \"" ++ "missing_variation" ++ "\" is not in datafile."),
       .handleError "InvalidVariationException"]) :=
  ⟨by decide, by decide,
   (c9_amended_dangling_forced_reports_then_falls_through cfgRich envC7 expDangling
     "user_1" none cfgRichMaps
     (cfgRichMaps.variation_key_map.find? (fun p => p.1 == "dangling_experiment")
       |>.map (fun p => p.2) |>.getD [])
     "missing_variation"
     (by decide) (by decide) (by decide) (by decide) (by decide) (by decide)).1⟩

end Optly
